import Mathlib

/-!
Shallow embedding of the ShitRust runtime core (Waowzar/shitrust) in Lean 4.

The embedded components, each kept close to its Rust source file:

* `SR`        — `src/interpreter.rs`: the `Value`/`Environment` data model and
                the tree-walking evaluator (`evaluate_expr`, `execute_stmt`,
                `pattern_matches`, the arithmetic/comparison operators).
* `SRTraits`  — `src/traits.rs`: `TraitRegistry` (`register_impl`,
                `get_trait_method`) and `call_trait_method`.
* `SRModules` — `src/module_system.rs`: `Module::load` and
                `ModuleRegistry::import_module`, with file reading, lexing,
                parsing and module execution abstracted as a parameter
                (they live outside `module_system.rs`).
* `SRAsync`   — `src/stdlib/async_runtime.rs`: the `TaskExecutor` scheduler
                loop as a fuelled state machine; each mutex-protected region
                of the Rust code is one atomic step here, wall-clock time is a
                natural-number counter, and a future is modelled by the script
                of results its successive polls return.

Modelling conventions:
* Rust `f64` is modelled as `Rat`.  None of the properties proved below
  depends on non-finite floats or rounding.
* `HashMap` is modelled as an association list with insert-or-replace;
  iteration order is the insertion order of the list.
* Machine integers (`i64`) are modelled as `Int`; no embedded operation
  relies on wrap-around.
* Fallible Rust functions returning `Result<T, ShitRustError>` become
  `Except Err T`.  Recursive evaluator functions take a fuel argument; an
  exhausted fuel yields the extra error `Err.outOfFuel`, which no Rust path
  produces and which the theorems below never rely on.
-/

namespace SR

/-- `ShitRustError` from `src/error.rs`, restricted to the variants the
embedded code constructs.  `undefinedVariable` mirrors the
`ShitRustError::UndefinedVariable(name)` the interpreter raises on a failed
lookup.  `outOfFuel` is the embedding's fuel marker (see header). -/
inductive Err where
  | typeError (msg : String)
  | runtimeError (msg : String)
  | valueError (msg : String)
  | ioException (msg : String)
  | notImplemented (msg : String)
  | undefinedVariable (name : String)
  | moduleNotFound (name : String)
  | traitError (msg : String)
  | patternMatchError (msg : String)
  | breakSignal
  | continueSignal
  | returnSignal
  | outOfFuel
  deriving DecidableEq, Repr

/-- Association-list lookup, modelling `HashMap::get`. -/
def alookup {κ α : Type} [DecidableEq κ] (key : κ) : List (κ × α) → Option α
  | [] => Option.none
  | (k, v) :: rest => if k = key then Option.some v else alookup key rest

/-- Association-list insert-or-replace, modelling `HashMap::insert`. -/
def ainsert {κ α : Type} [DecidableEq κ] (key : κ) (val : α) :
    List (κ × α) → List (κ × α)
  | [] => [(key, val)]
  | (k, v) :: rest => if k = key then (key, val) :: rest else (k, v) :: ainsert key val rest

/-- `BinOp` from `src/ast.rs`, restricted to the operators the interpreter's
`evaluate_expr` actually matches (the AST lists further bitwise/pipeline
operators that no interpreter arm handles). -/
inductive BinOp where
  | add | sub | mul | div | mod | eq | ne | lt | le | gt | ge | and | or
  deriving DecidableEq, Repr

/-- `UnaryOp` from `src/ast.rs` (the interpreter handles `Neg` and `Not`). -/
inductive UnaryOp where
  | neg | not
  deriving DecidableEq, Repr

/-- `Literal` from `src/ast.rs` as consumed by `evaluate_literal` in
`src/interpreter.rs`: the interpreter recurses on list elements as literals.
`Dict`/`Tuple`/`Range` literals fall into the evaluator's unimplemented
branch and are represented by `otherLit`. -/
inductive Literal where
  | int (i : Int)
  | float (f : Rat)
  | bool (b : Bool)
  | str (s : String)
  | char (c : Char)
  | list (items : List Literal)
  | noneLit
  | otherLit

/-- `Pattern` from `src/ast.rs`. -/
inductive Pattern where
  | wildcard
  | literal (lit : Literal)
  | identifier (name : String)
  | destructure (name : String) (fields : List (String × Pattern))
  | enumVariant (name : String) (values : List Pattern)
  | orP (patterns : List Pattern)
  | range (start stop : Literal) (inclusive : Bool)

mutual

/-- `Expr` from `src/ast.rs`, restricted to the constructors
`evaluate_expr` implements; every other expression form falls into the
catch-all "not yet implemented" arm and is represented by `otherExpr`. -/
inductive Expr where
  | literal (lit : Literal)
  | identifier (name : String)
  | binaryOp (left : Expr) (op : BinOp) (right : Expr)
  | unaryOp (op : UnaryOp) (expr : Expr)
  | call (func : Expr) (args : List Expr)
  | methodCall (object : Expr) (method : String) (args : List Expr)
  | matchE (expr : Expr) (arms : List (Pattern × Expr))
  | otherExpr

/-- `Stmt` from `src/ast.rs`, restricted to the arms `execute_stmt`
implements for the claims at hand; the remaining statement forms fall into
the interpreter's catch-all arm (print a notice, return `Ok(())`) and are
represented by `otherStmt`. -/
inductive Stmt where
  | expr (e : Expr)
  | letS (name : String) (value : Expr)
  | assign (target : Expr) (value : Expr)
  | ifS (condition : Expr) (thenBlock : List Stmt) (elseBlock : Option (List Stmt))
  | whileS (condition : Expr) (body : List Stmt)
  | returnS (value : Option Expr)
  | function (name : String) (params : List String) (body : List Stmt)
  | otherStmt

end

/-- Tag for the built-in native functions installed by `Environment::new`. -/
inductive NativeFn where
  | println
  | print
  deriving DecidableEq, Repr

mutual

/-- `Value` from `src/interpreter.rs`.  Besides the declared variants, the
interpreter's code pattern-matches `Value::Enum` and constructs
`Value::Object` (e.g. in `pattern_matches` and `StructInit`); both are
included so those code paths can be embedded.  A `Function` owns its
`closure` environment by value, exactly as the Rust
`closure: Box<Environment>` field does. -/
inductive Value where
  | int (i : Int)
  | float (f : Rat)
  | bool (b : Bool)
  | str (s : String)
  | char (c : Char)
  | list (items : List Value)
  | dict (entries : List (String × Value))
  | tuple (items : List Value)
  | function (name : String) (params : List String) (body : List Stmt) (closure : Env)
  | nativeFunction (name : String) (func : NativeFn)
  | none
  | optional (v : Option Value)
  | enumV (variant : String) (values : List Value)
  | object (fields : List (String × Value))

/-- `Environment` from `src/interpreter.rs`: a frame of bindings plus an
owned (`Option<Box<Environment>>`) parent.  Cloning an `Environment` in Rust
deep-copies the whole chain; in the embedding every use of an `Env` value is
such an independent copy. -/
inductive Env where
  | mk (values : List (String × Value)) (parent : Option Env)

end

namespace Env

/-- The `values` field of a frame. -/
def values : Env → List (String × Value)
  | .mk vs _ => vs

/-- The `parent` field of a frame. -/
def parent : Env → Option Env
  | .mk _ p => p

/-- `Environment::new`: fresh root frame with the `println`/`print`
built-ins pre-defined. -/
def new : Env :=
  .mk [("println", Value.nativeFunction "println" NativeFn.println),
       ("print", Value.nativeFunction "print" NativeFn.print)] Option.none

/-- `Environment::with_parent`. -/
def withParent (p : Env) : Env := .mk [] (Option.some p)

/-- `Environment::define`: insert into the innermost frame. -/
def define (name : String) (v : Value) : Env → Env
  | .mk vs p => .mk (ainsert name v vs) p

/-- `Environment::get`: walk the chain innermost-out; an undefined name is
`ShitRustError::UndefinedVariable`. -/
def get (name : String) : Env → Except Err Value
  | .mk vs p =>
    match alookup name vs with
    | Option.some v => .ok v
    | Option.none =>
      match p with
      | Option.some parentEnv => parentEnv.get name
      | Option.none => .error (.undefinedVariable name)

/-- `Environment::assign`: overwrite in the innermost frame already defining
the name; an undefined name is `ShitRustError::UndefinedVariable`. -/
def assign (name : String) (v : Value) : Env → Except Err Env
  | .mk vs p =>
    if (alookup name vs).isSome then
      .ok (.mk (ainsert name v vs) p)
    else
      match p with
      | Option.some parentEnv =>
        match parentEnv.assign name v with
        | .ok parentEnv2 => .ok (.mk vs (Option.some parentEnv2))
        | .error e => .error e
      | Option.none => .error (.undefinedVariable name)

end Env

end SR

namespace SR

/-- `Value::type_name` from `src/interpreter.rs`.  The `Enum`/`Object`
variants have no arm in the Rust `type_name` (they are constructed elsewhere
in the file without being declared); they are rendered here with their plain
names, which no embedded code path inspects. -/
def typeName : Value → String
  | .int _ => "int"
  | .float _ => "float"
  | .bool _ => "bool"
  | .str _ => "string"
  | .char _ => "char"
  | .list _ => "list"
  | .dict _ => "dict"
  | .tuple _ => "tuple"
  | .function _ _ _ _ => "function"
  | .nativeFunction _ _ => "native function"
  | .none => "none"
  | .optional _ => "optional"
  | .enumV _ _ => "enum"
  | .object _ => "object"

/-- `Value::to_string` from `src/interpreter.rs`, fuelled for the nested
list/dict recursion.  Numeric rendering follows Lean's `Int`/`Rat`
`toString`; no theorem below depends on the rendering of a float. -/
def valueToString : Nat → Value → String
  | 0, _ => ""
  | fuel + 1, v =>
    match v with
    | .int i => toString i
    | .float f => toString f
    | .bool b => toString b
    | .str s => s
    | .char c => c.toString
    | .list items =>
      "[" ++ String.intercalate ", " (items.map (fun x => valueToString fuel x)) ++ "]"
    | .dict entries =>
      "\x7b" ++ String.intercalate ", "
        (entries.map (fun kv => kv.1 ++ ": " ++ valueToString fuel kv.2)) ++ "\x7d"
    | .tuple items =>
      "(" ++ String.intercalate ", " (items.map (fun x => valueToString fuel x)) ++ ")"
    | .function name _ _ _ => "<function " ++ name ++ ">"
    | .nativeFunction name _ => "<native function " ++ name ++ ">"
    | .none => "none"
    | .optional o =>
      match o with
      | Option.some inner => valueToString fuel inner
      | Option.none => "None"
    | .enumV variant _ => variant
    | .object _ => "object"

/-- The built-in `println`/`print` native functions from `Environment::new`:
they stringify their arguments to stdout and return `Value::None`.  Stdout
is outside the value semantics, so only the returned value is modelled. -/
def applyNative (_fn : NativeFn) (_args : List Value) : Except Err Value :=
  .ok Value.none

/-- `Interpreter::add` from `src/interpreter.rs`: integer addition, float
promotion, string concatenation with stringification of the other operand. -/
def add (fuel : Nat) : Value → Value → Except Err Value
  | .int a, .int b => .ok (.int (a + b))
  | .float a, .float b => .ok (.float (a + b))
  | .int a, .float b => .ok (.float ((a : Rat) + b))
  | .float a, .int b => .ok (.float (a + (b : Rat)))
  | .str a, .str b => .ok (.str (a ++ b))
  | .str a, b => .ok (.str (a ++ valueToString fuel b))
  | a, .str b => .ok (.str (valueToString fuel a ++ b))
  | _, _ => .error (.typeError "Cannot add these types")

/-- `Interpreter::subtract` from `src/interpreter.rs`. -/
def subtract : Value → Value → Except Err Value
  | .int a, .int b => .ok (.int (a - b))
  | .float a, .float b => .ok (.float (a - b))
  | .int a, .float b => .ok (.float ((a : Rat) - b))
  | .float a, .int b => .ok (.float (a - (b : Rat)))
  | _, _ => .error (.typeError "Cannot subtract these types")

/-- `Interpreter::multiply` from `src/interpreter.rs`. -/
def multiply : Value → Value → Except Err Value
  | .int a, .int b => .ok (.int (a * b))
  | .float a, .float b => .ok (.float (a * b))
  | .int a, .float b => .ok (.float ((a : Rat) * b))
  | .float a, .int b => .ok (.float (a * (b : Rat)))
  | _, _ => .error (.typeError "Cannot multiply these types")

/-- `Interpreter::divide` from `src/interpreter.rs`: a zero divisor of
either numeric type is `RuntimeError("Division by zero")`; integer division
truncates toward zero as Rust `i64` division does (`Int.tdiv`). -/
def divide : Value → Value → Except Err Value
  | .int a, .int b =>
    if b = 0 then .error (.runtimeError "Division by zero")
    else .ok (.int (Int.tdiv a b))
  | .float a, .float b =>
    if b = 0 then .error (.runtimeError "Division by zero")
    else .ok (.float (a / b))
  | .int a, .float b =>
    if b = 0 then .error (.runtimeError "Division by zero")
    else .ok (.float ((a : Rat) / b))
  | .float a, .int b =>
    if b = 0 then .error (.runtimeError "Division by zero")
    else .ok (.float (a / (b : Rat)))
  | _, _ => .error (.typeError "Cannot divide these types")

/-- `Interpreter::modulo` from `src/interpreter.rs`: only the `Int`/`Int`
case is supported; a zero divisor is `RuntimeError("Modulo by zero")`, any
other operand pair (floats included) is
`TypeError("Modulo only works with integers")`.  Rust `%` on `i64` is
truncated remainder (`Int.tmod`). -/
def modulo : Value → Value → Except Err Value
  | .int a, .int b =>
    if b = 0 then .error (.runtimeError "Modulo by zero")
    else .ok (.int (Int.tmod a b))
  | _, _ => .error (.typeError "Modulo only works with integers")

/-- `Interpreter::equals` from `src/interpreter.rs`: same-tag comparison for
`Int`, `Float`, `Bool`, `String`, `Char` and `None`; every other pair of
operands (mixed tags included) falls to the catch-all `Ok(Bool(false))`. -/
def equals : Value → Value → Except Err Value
  | .int a, .int b => .ok (.bool (a = b))
  | .float a, .float b => .ok (.bool (a = b))
  | .bool a, .bool b => .ok (.bool (a = b))
  | .str a, .str b => .ok (.bool (a = b))
  | .char a, .char b => .ok (.bool (a = b))
  | .none, .none => .ok (.bool true)
  | _, _ => .ok (.bool false)

/-- `Interpreter::less_than` from `src/interpreter.rs`: mixed `Int`/`Float`
operands are coerced to float before comparing. -/
def lessThan : Value → Value → Except Err Value
  | .int a, .int b => .ok (.bool (a < b))
  | .float a, .float b => .ok (.bool (a < b))
  | .int a, .float b => .ok (.bool ((a : Rat) < b))
  | .float a, .int b => .ok (.bool (a < (b : Rat)))
  | .str a, .str b => .ok (.bool (a < b))
  | .char a, .char b => .ok (.bool (a < b))
  | _, _ => .error (.typeError "Cannot compare these types")

/-- `Interpreter::less_equal` from `src/interpreter.rs`. -/
def lessEqual : Value → Value → Except Err Value
  | .int a, .int b => .ok (.bool (a ≤ b))
  | .float a, .float b => .ok (.bool (a ≤ b))
  | .int a, .float b => .ok (.bool ((a : Rat) ≤ b))
  | .float a, .int b => .ok (.bool (a ≤ (b : Rat)))
  | .str a, .str b => .ok (.bool (a ≤ b))
  | .char a, .char b => .ok (.bool (a ≤ b))
  | _, _ => .error (.typeError "Cannot compare these types")

/-- `Interpreter::greater_than` from `src/interpreter.rs`. -/
def greaterThan : Value → Value → Except Err Value
  | .int a, .int b => .ok (.bool (a > b))
  | .float a, .float b => .ok (.bool (a > b))
  | .int a, .float b => .ok (.bool ((a : Rat) > b))
  | .float a, .int b => .ok (.bool (a > (b : Rat)))
  | .str a, .str b => .ok (.bool (a > b))
  | .char a, .char b => .ok (.bool (a > b))
  | _, _ => .error (.typeError "Cannot compare these types")

/-- `Interpreter::greater_equal` from `src/interpreter.rs`. -/
def greaterEqual : Value → Value → Except Err Value
  | .int a, .int b => .ok (.bool (a ≥ b))
  | .float a, .float b => .ok (.bool (a ≥ b))
  | .int a, .float b => .ok (.bool ((a : Rat) ≥ b))
  | .float a, .int b => .ok (.bool (a ≥ (b : Rat)))
  | .str a, .str b => .ok (.bool (a ≥ b))
  | .char a, .char b => .ok (.bool (a ≥ b))
  | _, _ => .error (.typeError "Cannot compare these types")

end SR

namespace SR

/-- `Interpreter::evaluate_literal` from `src/interpreter.rs`, fuelled for
the nested list recursion.  `Dict`/`Tuple`/`Range` literals fall into the
"not yet implemented" arm. -/
def evaluateLiteral : Nat → Literal → Except Err Value
  | 0, _ => .error .outOfFuel
  | fuel + 1, lit =>
    match lit with
    | .int i => .ok (.int i)
    | .float f => .ok (.float f)
    | .bool b => .ok (.bool b)
    | .str s => .ok (.str s)
    | .char c => .ok (.char c)
    | .list items => do
      let vals ← items.mapM (fun item => evaluateLiteral fuel item)
      .ok (.list vals)
    | .noneLit => .ok Value.none
    | .otherLit => .error (.runtimeError "Literal type not yet implemented")

/-- Structural equality on values, standing in for the Rust `==` that
`values_equal` applies to `Vec<Value>`/`HashMap` contents.  (`Value` derives
no `PartialEq` in the source, so that `==` does not compile as written; it
is modelled as derived-style structural equality with function values never
equal, matching the declared semantics of function comparison.)  Floats
compare exactly here — the `1e-9` epsilon belongs to `values_equal` itself,
not to the element comparison it delegates to. -/
def valueBEq : Nat → Value → Value → Bool
  | 0, _, _ => false
  | fuel + 1, v, w =>
    match v, w with
    | .int a, .int b => a = b
    | .float a, .float b => a = b
    | .bool a, .bool b => a = b
    | .str a, .str b => a = b
    | .char a, .char b => a = b
    | .list a, .list b =>
      a.length = b.length && (a.zip b).all (fun p => valueBEq fuel p.1 p.2)
    | .dict a, .dict b =>
      a.length = b.length &&
        (a.zip b).all (fun p => p.1.1 = p.2.1 && valueBEq fuel p.1.2 p.2.2)
    | .tuple a, .tuple b =>
      a.length = b.length && (a.zip b).all (fun p => valueBEq fuel p.1 p.2)
    | .function _ _ _ _, .function _ _ _ _ => false
    | .nativeFunction _ _, .nativeFunction _ _ => false
    | .none, .none => true
    | .optional a, .optional b =>
      match a, b with
      | Option.some x, Option.some y => valueBEq fuel x y
      | Option.none, Option.none => true
      | _, _ => false
    | .enumV va la, .enumV vb lb =>
      va = vb && la.length = lb.length && (la.zip lb).all (fun p => valueBEq fuel p.1 p.2)
    | .object a, .object b =>
      a.length = b.length &&
        (a.zip b).all (fun p => p.1.1 = p.2.1 && valueBEq fuel p.1.2 p.2.2)
    | _, _ => false

/-- `Interpreter::values_equal` from `src/interpreter.rs`: structural value
equality as used by literal patterns, with float comparison using the
`1e-9` epsilon, container comparison via `==` (see `valueBEq`), functions
and native functions never equal, and `Optional` compared recursively.  The
`Trait`/`TraitImpl` arms concern trait carrier values embedded separately
in `SRTraits` and are not represented here. -/
def valuesEqual : Nat → Value → Value → Bool
  | 0, _, _ => false
  | fuel + 1, v, w =>
    match v, w with
    | .int a, .int b => a = b
    | .float a, .float b => |a - b| < (1 : Rat) / 1000000000
    | .bool a, .bool b => a = b
    | .str a, .str b => a = b
    | .char a, .char b => a = b
    | .list a, .list b => valueBEq fuel (.list a) (.list b)
    | .dict a, .dict b => valueBEq fuel (.dict a) (.dict b)
    | .tuple a, .tuple b => valueBEq fuel (.tuple a) (.tuple b)
    | .function _ _ _ _, .function _ _ _ _ => false
    | .nativeFunction _ _, .nativeFunction _ _ => false
    | .optional a, .optional b =>
      match a, b with
      | Option.some x, Option.some y => valuesEqual fuel x y
      | _, _ => a.isNone && b.isNone
    | _, _ => false

/-- `(params.iter().zip(args))`-style parameter binding used by
`Expr::Call` on a user function: define each parameter in `env` in order. -/
def bindParams (params : List String) (args : List Value) (env : Env) : Env :=
  (params.zip args).foldl (fun e pa => e.define pa.1 pa.2) env

mutual

/-- `Interpreter::evaluate_expr` from `src/interpreter.rs`.  The
interpreter's only state consulted on these paths is `self.environment`,
threaded here explicitly: the result pairs the value with the environment
as left by the evaluation (Rust mutates it in place).  Unimplemented
expression forms reproduce the catch-all runtime error. -/
def evaluateExpr : Nat → Expr → Env → Except Err (Value × Env)
  | 0, _, _ => .error .outOfFuel
  | fuel + 1, e, env =>
    match e with
    | .literal lit => do
      let v ← evaluateLiteral fuel lit
      .ok (v, env)
    | .identifier name => do
      let v ← env.get name
      .ok (v, env)
    | .binaryOp left op right => do
      -- Rust evaluates BOTH operands before dispatching on the operator,
      -- `&&`/`||` included.
      let (leftVal, env1) ← evaluateExpr fuel left env
      let (rightVal, env2) ← evaluateExpr fuel right env1
      match op with
      | .add => do let v ← add fuel leftVal rightVal; .ok (v, env2)
      | .sub => do let v ← subtract leftVal rightVal; .ok (v, env2)
      | .mul => do let v ← multiply leftVal rightVal; .ok (v, env2)
      | .div => do let v ← divide leftVal rightVal; .ok (v, env2)
      | .mod => do let v ← modulo leftVal rightVal; .ok (v, env2)
      | .eq => do let v ← equals leftVal rightVal; .ok (v, env2)
      | .ne => do
        let v ← equals leftVal rightVal
        match v with
        | .bool b => .ok (.bool !b, env2)
        | _ => .error (.runtimeError "Equality check did not return boolean")
      | .lt => do let v ← lessThan leftVal rightVal; .ok (v, env2)
      | .le => do let v ← lessEqual leftVal rightVal; .ok (v, env2)
      | .gt => do let v ← greaterThan leftVal rightVal; .ok (v, env2)
      | .ge => do let v ← greaterEqual leftVal rightVal; .ok (v, env2)
      | .and =>
        match leftVal with
        | .bool false => .ok (.bool false, env2)
        | _ =>
          match rightVal with
          | .bool b => .ok (.bool b, env2)
          | _ =>
            .error (.typeError
              ("Expected boolean for '&&', got " ++ typeName rightVal))
      | .or =>
        match leftVal with
        | .bool true => .ok (.bool true, env2)
        | _ =>
          match rightVal with
          | .bool b => .ok (.bool b, env2)
          | _ =>
            .error (.typeError
              ("Expected boolean for '||', got " ++ typeName rightVal))
    | .unaryOp op inner => do
      let (v, env1) ← evaluateExpr fuel inner env
      match op with
      | .neg =>
        match v with
        | .int i => .ok (.int (-i), env1)
        | .float f => .ok (.float (-f), env1)
        | _ => .error (.typeError ("Cannot negate " ++ typeName v))
      | .not =>
        match v with
        | .bool b => .ok (.bool !b, env1)
        | _ => .error (.typeError ("Cannot apply '!' to " ++ typeName v))
    | .call funcExpr args => do
      let (callee, env1) ← evaluateExpr fuel funcExpr env
      let (argVals, env2) ← evaluateExprList fuel args env1
      match callee with
      | .nativeFunction _ nf => do
        let v ← applyNative nf argVals
        .ok (v, env2)
      | .function _ params body closure =>
        if params.length ≠ argVals.length then
          .error (.runtimeError
            ("Expected " ++ toString params.length ++ " arguments but got "
              ++ toString argVals.length))
        else
          -- New environment parented at the function's (copied) closure;
          -- the caller's environment is saved and restored wholesale.
          let fnEnv := bindParams params argVals (Env.withParent closure)
          match executeStmtList fuel body fnEnv with
          | .ok _ => .ok (Value.none, env2)  -- "For now, always return None"
          | .error err => .error err
      | _ => .error (.runtimeError ("Cannot call " ++ typeName callee))
    | .methodCall object method _args => do
      -- Rust evaluates the receiver, answers `to_string` directly, and
      -- otherwise errors; the argument list is never evaluated here.
      let (objVal, env1) ← evaluateExpr fuel object env
      if method = "to_string" then
        .ok (.str (valueToString fuel objVal), env1)
      else
        .error (.runtimeError
          ("Method '" ++ method ++ "' not found on " ++ typeName objVal))
    | .matchE scrutinee arms => do
      let (v, env1) ← evaluateExpr fuel scrutinee env
      evaluateMatchArms fuel v arms env1
    | .otherExpr => .error (.runtimeError "Expression type not yet implemented")

/-- Argument-list evaluation inside `Expr::Call` (the `for arg in args`
loop), threading the environment left to right. -/
def evaluateExprList : Nat → List Expr → Env → Except Err (List Value × Env)
  | 0, _, _ => .error .outOfFuel
  | _fuel + 1, [], env => .ok ([], env)
  | fuel + 1, e :: rest, env => do
    let (v, env1) ← evaluateExpr fuel e env
    let (vs, env2) ← evaluateExprList fuel rest env1
    .ok (v :: vs, env2)

/-- The arm loop of `Expr::Match`: try each pattern against the value
(pattern matching mutates the environment, successes and failures alike),
evaluate the first arm whose pattern matches, and raise
`PatternMatchError` when none does. -/
def evaluateMatchArms : Nat → Value → List (Pattern × Expr) → Env →
    Except Err (Value × Env)
  | 0, _, _, _ => .error .outOfFuel
  | _fuel + 1, _, [], _ => .error (.patternMatchError "No pattern matched value")
  | fuel + 1, v, (pat, result) :: rest, env => do
    let (matched, env1) ← patternMatches fuel v pat env
    if matched then evaluateExpr fuel result env1
    else evaluateMatchArms fuel v rest env1

/-- `Interpreter::execute_stmt` from `src/interpreter.rs`, restricted as
described at `Stmt`.  Returns the environment after the statement. -/
def executeStmt : Nat → Stmt → Env → Except Err Env
  | 0, _, _ => .error .outOfFuel
  | fuel + 1, stmt, env =>
    match stmt with
    | .expr e => do
      let (_, env1) ← evaluateExpr fuel e env
      .ok env1
    | .letS name valueExpr => do
      let (v, env1) ← evaluateExpr fuel valueExpr env
      .ok (env1.define name v)
    | .assign target valueExpr =>
      match target with
      | .identifier name => do
        let (v, env1) ← evaluateExpr fuel valueExpr env
        env1.assign name v
      | _ => .error (.runtimeError "Invalid assignment target")
    | .ifS condition thenBlock elseBlock => do
      let (condVal, env1) ← evaluateExpr fuel condition env
      match condVal with
      | .bool true => executeStmtList fuel thenBlock env1
      | _ =>
        match elseBlock with
        | Option.some elseStmts => executeStmtList fuel elseStmts env1
        | Option.none => .ok env1
    | .whileS condition body => do
      let (condVal, env1) ← evaluateExpr fuel condition env
      match condVal with
      | .bool true => do
        let env2 ← executeStmtList fuel body env1
        executeStmt fuel (.whileS condition body) env2
      | _ => .ok env1
    | .returnS valueOpt =>
      -- "For simplicity, we're not implementing return values yet": the
      -- value is evaluated and discarded, and execution continues.
      match valueOpt with
      | Option.some e => do
        let (_, env1) ← evaluateExpr fuel e env
        .ok env1
      | Option.none => .ok env
    | .function name params body =>
      -- The closure is a clone of the defining environment, taken before
      -- the function is itself defined into it.
      .ok (env.define name (Value.function name params body env))
    | .otherStmt => .ok env  -- catch-all: print a notice, Ok(())

/-- Sequential statement execution (`for stmt in block`). -/
def executeStmtList : Nat → List Stmt → Env → Except Err Env
  | 0, _, _ => .error .outOfFuel
  | _fuel + 1, [], env => .ok env
  | fuel + 1, s :: rest, env => do
    let env1 ← executeStmt fuel s env
    executeStmtList fuel rest env1

/-- `Interpreter::pattern_matches` from `src/interpreter.rs`.  Returns the
match verdict together with the environment as the matcher left it: the
`Identifier` arm defines its binding immediately, whether or not any
enclosing pattern later fails. -/
def patternMatches : Nat → Value → Pattern → Env → Except Err (Bool × Env)
  | 0, _, _, _ => .error .outOfFuel
  | fuel + 1, v, pat, env =>
    match pat with
    | .wildcard => .ok (true, env)
    | .literal lit => do
      let patternValue ← evaluateLiteral fuel lit
      .ok (valuesEqual fuel v patternValue, env)
    | .identifier name => .ok (true, env.define name v)
    | .enumVariant name pats =>
      match v with
      | .enumV variant enumValues =>
        if variant ≠ name then .ok (false, env)
        else if pats.length ≠ enumValues.length then .ok (false, env)
        else patternMatchesList fuel enumValues pats env
      | _ => .ok (false, env)
    | .destructure name fields =>
      match v with
      | .object obj =>
        -- The `__type` tag is checked only when the pattern names a type,
        -- the tag is present and the tag is a string.
        let tagMismatch :=
          if name ≠ "" then
            match alookup "__type" obj with
            | Option.some (.str objType) => objType ≠ name
            | _ => false
          else false
        if tagMismatch then .ok (false, env)
        else patternMatchesFields fuel obj fields env
      | _ => .ok (false, env)
    | .orP pats => patternMatchesOr fuel v pats env
    | .range start stop inclusive => do
      let startValue ← evaluateLiteral fuel start
      let stopValue ← evaluateLiteral fuel stop
      match v, startValue, stopValue with
      | .int x, .int s, .int e =>
        .ok ((if inclusive then s ≤ x ∧ x ≤ e else s ≤ x ∧ x < e : Bool), env)
      | .float x, .float s, .float e =>
        .ok ((if inclusive then s ≤ x ∧ x ≤ e else s ≤ x ∧ x < e : Bool), env)
      | .char x, .char s, .char e =>
        .ok ((if inclusive then s ≤ x ∧ x ≤ e else s ≤ x ∧ x < e : Bool), env)
      | _, _, _ =>
        .error (.typeError "Cannot apply range pattern to incompatible types")

/-- The sub-pattern loop of `Pattern::EnumVariant`: match position by
position, stopping at the first failure (earlier bindings stay). -/
def patternMatchesList : Nat → List Value → List Pattern → Env →
    Except Err (Bool × Env)
  | 0, _, _, _ => .error .outOfFuel
  | fuel + 1, v :: vs, p :: ps, env => do
    let (matched, env1) ← patternMatches fuel v p env
    if matched then patternMatchesList fuel vs ps env1
    else .ok (false, env1)
  | _fuel + 1, _, _, env => .ok (true, env)

/-- The field loop of `Pattern::Destructure`: each named field must exist
on the object and match its sub-pattern. -/
def patternMatchesFields : Nat → List (String × Value) →
    List (String × Pattern) → Env → Except Err (Bool × Env)
  | 0, _, _, _ => .error .outOfFuel
  | _fuel + 1, _, [], env => .ok (true, env)
  | fuel + 1, obj, (fieldName, fieldPat) :: rest, env =>
    match alookup fieldName obj with
    | Option.some fieldValue => do
      let (matched, env1) ← patternMatches fuel fieldValue fieldPat env
      if matched then patternMatchesFields fuel obj rest env1
      else .ok (false, env1)
    | Option.none => .ok (false, env)

/-- The alternative loop of `Pattern::Or`: first success wins; bindings
made by failed alternatives stay in the environment. -/
def patternMatchesOr : Nat → Value → List Pattern → Env →
    Except Err (Bool × Env)
  | 0, _, _, _ => .error .outOfFuel
  | _fuel + 1, _, [], env => .ok (false, env)
  | fuel + 1, v, p :: ps, env => do
    let (matched, env1) ← patternMatches fuel v p env
    if matched then .ok (true, env1)
    else patternMatchesOr fuel v ps env1

end

end SR

/-!
Embedding of `src/traits.rs`.  That file uses a `Value` shape of its own
(`Value::Function { func, arity, .. }`, `Value::Set`, `Value::Range`), so it
gets a dedicated value type here.  The actual invocation of a resolved
method goes through `Interpreter::call_function` / the native function
pointer, both outside the registry logic; they are abstracted as the
`callF`/`natF` parameters.
-/

namespace SRTraits

/-- The value shape `src/traits.rs` works with: the variants
`call_trait_method` pattern-matches to determine the receiver's type name,
and callable values carrying an `arity` contract (`-1` = variadic) plus an
identifier standing for the boxed function. -/
inductive TValue where
  | object (fields : List (String × TValue))
  | int (i : Int)
  | float (f : Rat)
  | bool (b : Bool)
  | str (s : String)
  | list (items : List TValue)
  | dict (entries : List (String × TValue))
  | set (items : List TValue)
  | function (name : String) (arity : Int) (funcId : Nat)
  | nativeFunction (name : String) (arity : Int) (funcId : Nat)
  | none
  | range (start stop : Int)

/-- `TraitMethod` from `src/traits.rs`: only `name` and `default_impl` are
inspected by the registry operations; the parameter list, return type and
`is_async` flag are carried by the source struct but never read on these
paths. -/
structure TraitMethodDef where
  name : String
  defaultImpl : Option (List SR.Stmt)

/-- `Trait` from `src/traits.rs`. -/
structure TraitDef where
  name : String
  methods : List (String × TraitMethodDef)
  genericParams : List String

/-- `TraitImpl` from `src/traits.rs`. -/
structure TraitImplDef where
  traitName : String
  typeName : String
  methods : List (String × TValue)
  genericParams : List String

/-- `TraitRegistry` from `src/traits.rs`: traits by name, implementations
by `(trait name, type name)`. -/
structure TraitRegistry where
  traits : List (String × TraitDef)
  impls : List ((String × String) × TraitImplDef)

/-- `TraitRegistry::new`. -/
def TraitRegistry.empty : TraitRegistry := ⟨[], []⟩

/-- `TraitRegistry::register_trait`. -/
def registerTrait (traitDef : TraitDef) (reg : TraitRegistry) : TraitRegistry :=
  { reg with traits := SR.ainsert traitDef.name traitDef reg.traits }

/-- The `for (method_name, method_def) in &trait_def.methods` loop of
`register_impl`: the first required method with neither an override in the
impl nor a trait-level default. -/
def findMissingMethod (implDef : TraitImplDef) :
    List (String × TraitMethodDef) → Option String
  | [] => Option.none
  | (methodName, methodDef) :: rest =>
    if (SR.alookup methodName implDef.methods).isNone ∧ methodDef.defaultImpl.isNone then
      Option.some methodName
    else findMissingMethod implDef rest

/-- `TraitRegistry::register_impl` from `src/traits.rs`: reject an unknown
trait, then reject the first required method lacking both an override and a
default (both rejections are `ShitRustError::TypeError`s in the source),
otherwise store the implementation keyed by `(trait, type)`. -/
def registerImpl (implDef : TraitImplDef) (reg : TraitRegistry) :
    Except SR.Err TraitRegistry :=
  match SR.alookup implDef.traitName reg.traits with
  | Option.none =>
    .error (.typeError
      ("Cannot implement unknown trait '" ++ implDef.traitName ++ "'"))
  | Option.some traitDef =>
    match findMissingMethod implDef traitDef.methods with
    | Option.some methodName =>
      .error (.typeError
        ("Missing implementation for required method '" ++ methodName
          ++ "' in trait '" ++ implDef.traitName ++ "'"))
    | Option.none =>
      .ok { reg with
            impls := SR.ainsert (implDef.traitName, implDef.typeName) implDef reg.impls }

/-- `TraitRegistry::implements_trait`. -/
def implementsTrait (traitName typeName : String) (reg : TraitRegistry) : Bool :=
  (SR.alookup (traitName, typeName) reg.impls).isSome

/-- `TraitRegistry::get_trait_method` from `src/traits.rs`: return the
impl's override when present.  The default-implementation branch is the
source's TODO stub — it locates the trait default and then falls through,
so every path past the override lookup returns `None`. -/
def getTraitMethod (traitName typeName methodName : String)
    (reg : TraitRegistry) : Option TValue :=
  match SR.alookup (traitName, typeName) reg.impls with
  | Option.some implDef =>
    match SR.alookup methodName implDef.methods with
    | Option.some method => Option.some method
    | Option.none => Option.none
      -- the source then inspects `trait_def.methods[..].default_impl` but
      -- (TODO stub) builds no function value and returns None
  | Option.none => Option.none

/-- The receiver-type computation at the top of `call_trait_method`:
primitive tag names, or the object's `__type` string field. -/
def receiverTypeName : TValue → Except SR.Err String
  | .object fields =>
    match SR.alookup "__type" fields with
    | Option.some (.str typeName) => .ok typeName
    | _ => .error (.typeError "Object has no type information")
  | .int _ => .ok "int"
  | .float _ => .ok "float"
  | .bool _ => .ok "bool"
  | .str _ => .ok "string"
  | .list _ => .ok "list"
  | .dict _ => .ok "map"
  | .set _ => .ok "set"
  | .function _ _ _ => .ok "function"
  | .nativeFunction _ _ _ => .ok "function"
  | .none => .error (.typeError "Cannot call trait method on None")
  | .range _ _ => .ok "range"

/-- `TraitSupport::call_trait_method` from `src/traits.rs`: determine the
receiver's type, require an impl of the trait for it, resolve the method
via `get_trait_method`, enforce the arity contract against the argument
list with the receiver prepended, and invoke through `callF` (user
functions) or `natF` (native functions). -/
def callTraitMethod (callF natF : Nat → List TValue → Except SR.Err TValue)
    (reg : TraitRegistry) (object : TValue) (traitName methodName : String)
    (args : List TValue) : Except SR.Err TValue := do
  let typeName ← receiverTypeName object
  if ¬ implementsTrait traitName typeName reg then
    .error (.typeError
      ("Type '" ++ typeName ++ "' does not implement trait '" ++ traitName ++ "'"))
  else
    match getTraitMethod traitName typeName methodName reg with
    | Option.none =>
      .error (.runtimeError
        ("Trait '" ++ traitName ++ "' has no method '" ++ methodName ++ "'"))
    | Option.some method =>
      let methodArgs := object :: args
      match method with
      | .function _ arity funcId =>
        if 0 ≤ arity ∧ (methodArgs.length : Int) ≠ arity then
          .error (.runtimeError
            ("Wrong number of arguments for trait method: expected "
              ++ toString arity ++ ", got " ++ toString methodArgs.length))
        else callF funcId methodArgs
      | .nativeFunction _ arity funcId =>
        if 0 ≤ arity ∧ (methodArgs.length : Int) ≠ arity then
          .error (.runtimeError
            ("Wrong number of arguments for trait method: expected "
              ++ toString arity ++ ", got " ++ toString methodArgs.length))
        else natF funcId methodArgs
      | _ => .error (.typeError "Trait method is not callable")

end SRTraits

/-!
Embedding of `src/module_system.rs`.  File reading, lexing, parsing and the
execution of the module's statement list happen outside this file (through
`Lexer`/`Parser`/`Interpreter`); they are abstracted as parameters: `runM`
maps a module path to the export map produced by loading that file (or the
error the pipeline raises), and `findF` is `find_module_file`'s search over
the search-path list.  The registry is polymorphic in the export value type
`V`.  `execCount` counts completed module executions, the observable
"top-level side effect happened" events of claim C7.
-/

namespace SRModules

/-- `Module` from `src/module_system.rs`. -/
structure ModuleM (V : Type) where
  name : String
  path : String
  exports : List (String × V)
  loaded : Bool

/-- `ModuleRegistry` from `src/module_system.rs`, plus the execution
counter described in the section header. -/
structure ModuleRegistry (V : Type) where
  modules : List (String × ModuleM V)
  stdlibModules : List (String × List (String × V))
  execCount : Nat

/-- `Module::load` from `src/module_system.rs`: a no-op on an already
loaded module; otherwise run the read/lex/parse/execute pipeline (`runM`),
store the exports and set the `loaded` flag, counting one execution. -/
def load {V : Type} (runM : String → Except SR.Err (List (String × V)))
    (m : ModuleM V) (count : Nat) : Except SR.Err (ModuleM V × Nat) :=
  if m.loaded then .ok (m, count)
  else
    match runM m.path with
    | .error e => .error e
    | .ok exports => .ok ({ m with exports := exports, loaded := true }, count + 1)

/-- `ModuleRegistry::find_module_file`: resolves a module name through the
search paths, `ModuleNotFound` when every candidate misses. -/
def findModuleFile {V : Type} (findF : String → Option String) (name : String)
    (_reg : ModuleRegistry V) : Except SR.Err String :=
  match findF name with
  | Option.some path => .ok path
  | Option.none => .error (.moduleNotFound name)

/-- `ModuleRegistry::import_module` from `src/module_system.rs`: answer
from the standard-library table, else from the cached module (loading it if
its flag is somehow unset — a loaded module is returned as-is, nothing is
written back), else resolve the file, load, cache, and return the exports. -/
def importModule {V : Type} (runM : String → Except SR.Err (List (String × V)))
    (findF : String → Option String) (name : String) (reg : ModuleRegistry V) :
    Except SR.Err (List (String × V) × ModuleRegistry V) :=
  match SR.alookup name reg.stdlibModules with
  | Option.some stdlibExports => .ok (stdlibExports, reg)
  | Option.none =>
    match SR.alookup name reg.modules with
    | Option.some m =>
      if m.loaded then .ok (m.exports, reg)
      else
        match load runM m reg.execCount with
        | .error e => .error e
        | .ok (m2, count2) =>
          .ok (m2.exports,
               { reg with modules := SR.ainsert name m2 reg.modules,
                          execCount := count2 })
    | Option.none =>
      match findModuleFile findF name reg with
      | .error e => .error e
      | .ok path =>
        match load runM ⟨name, path, [], false⟩ reg.execCount with
        | .error e => .error e
        | .ok (m2, count2) =>
          .ok (m2.exports,
               { reg with modules := SR.ainsert name m2 reg.modules,
                          execCount := count2 })

/-- The module `name` is served from cache with exports `ex`: either a
standard-library table, or a stored module whose `loaded` flag is set
(standard-library lookup takes precedence in `import_module`). -/
def Cached {V : Type} (name : String) (reg : ModuleRegistry V)
    (ex : List (String × V)) : Prop :=
  SR.alookup name reg.stdlibModules = Option.some ex ∨
    (SR.alookup name reg.stdlibModules = Option.none ∧
      ∃ m, SR.alookup name reg.modules = Option.some m ∧ m.loaded = true ∧
        m.exports = ex)

end SRModules

/-!
Embedding of the `TaskExecutor` scheduler of `src/stdlib/async_runtime.rs`
as a state machine.  A task's future is modelled by the script of results
its successive polls return (`Task.future` is `Option`al exactly like the
Rust `Mutex<Option<...>>` slot: `none` once taken and not put back).
`Instant` is a natural number; `thread::sleep` advances it.  Tasks are kept
in a table keyed by a numeric identity (standing for the `Arc<Task>`
pointer); the ready queue and sleeping set hold identities.  Each
mutex-protected region of the Rust loop body is a single atomic step;
external waker invocations (`Task::wake` → `mark_ready`) are the separate
step `wake`.
-/

namespace SRAsync

/-- One poll's outcome: Rust `Poll::Pending` / `Poll::Ready(value)` (the
scheduler discards the ready value, so it is not carried). -/
inductive PollR where
  | pending
  | ready
  deriving DecidableEq, Repr

/-- `Task` from `src/stdlib/async_runtime.rs`: the future slot and the
`is_woken` flag of `TaskData`. -/
structure TaskT where
  future : Option (List PollR)
  isWoken : Bool
  deriving DecidableEq, Repr

/-- `TaskExecutor` state plus the task table and the clock. -/
structure ExecState where
  readyQueue : List Nat
  sleepingTasks : List (Nat × Nat)
  tasks : List (Nat × TaskT)
  now : Nat
  deriving DecidableEq, Repr

/-- `TaskExecutor::new`. -/
def ExecState.new : ExecState := ⟨[], [], [], 0⟩

/-- `Task::mark_ready` (also `Wake::wake`/`wake_by_ref`): set the task's
`is_woken` flag.  This is the step an external waker thread performs. -/
def wake (tid : Nat) (s : ExecState) : ExecState :=
  { s with tasks :=
      match SR.alookup tid s.tasks with
      | Option.some t => SR.ainsert tid { t with isWoken := true } s.tasks
      | Option.none => s.tasks }

/-- `TaskExecutor::spawn`: allocate a task holding the future and enqueue
it ready (fresh identity; the flag starts unset). -/
def spawn (script : List PollR) (s : ExecState) : ExecState :=
  let tid := s.tasks.length
  { s with tasks := SR.ainsert tid ⟨Option.some script, false⟩ s.tasks,
           readyQueue := s.readyQueue ++ [tid] }

/-- `Vec::swap_remove i`: replace element `i` with the last element and
shorten by one. -/
def swapRemove {α : Type} (i : Nat) (l : List α) : List α :=
  match l.getLast? with
  | Option.none => l
  | Option.some last => (l.set i last).dropLast

/-- The sleeping-task scan at the top of `TaskExecutor::run`'s loop body:
walk the vector with an index, `swap_remove`-ing every task whose deadline
has elapsed (collected in encounter order), keeping the rest.  The fuel is
an upper bound on loop trips (supply `sleeping.length + 1` or more). -/
def wakeSleepLoop (now : Nat) : Nat → Nat → List (Nat × Nat) → List Nat →
    List (Nat × Nat) × List Nat
  | 0, _, sleeping, acc => (sleeping, acc)
  | fuel + 1, i, sleeping, acc =>
    match sleeping[i]? with
    | Option.none => (sleeping, acc)
    | Option.some (tid, deadline) =>
      if deadline ≤ now then
        wakeSleepLoop now fuel i (swapRemove i sleeping) (acc ++ [tid])
      else
        wakeSleepLoop now fuel (i + 1) sleeping acc

/-- Smallest deadline of a non-empty sleeping set (`.min().unwrap()`). -/
def minDeadline : List (Nat × Nat) → Nat
  | [] => 0
  | (_, d) :: rest => rest.foldl (fun m p => min m p.2) d

/-- One iteration of `TaskExecutor::run`'s `while` body: move elapsed
sleepers to the ready queue (calling `mark_ready` on each), then either
poll the front ready task — on `Pending` put the future back and re-enqueue
the task only if `is_woken` was set, clearing it — or, with only sleepers
left, sleep until the earliest deadline. -/
def runStep (s : ExecState) : ExecState :=
  let woken := wakeSleepLoop s.now (s.sleepingTasks.length + 1) 0 s.sleepingTasks []
  let s1 :=
    woken.2.foldl
      (fun st tid => { wake tid st with readyQueue := (wake tid st).readyQueue ++ [tid] })
      { s with sleepingTasks := woken.1 }
  match s1.readyQueue with
  | tid :: rest =>
    let s2 := { s1 with readyQueue := rest }
    match SR.alookup tid s2.tasks with
    | Option.none => s2
    | Option.some t =>
      match t.future with
      | Option.none => s2  -- slot already empty: `if let Some(..)` fails
      | Option.some script =>
        match script with
        | [] =>
          -- exhausted script: completed future polled again; treated as
          -- `Ready` (never reached in the traces below)
          { s2 with tasks := SR.ainsert tid { t with future := Option.none } s2.tasks }
        | PollR.ready :: _ =>
          -- Poll::Ready: the future is dropped, the slot stays empty
          { s2 with tasks := SR.ainsert tid { t with future := Option.none } s2.tasks }
        | PollR.pending :: restScript =>
          -- Poll::Pending: put the future back, then check the wake flag
          if t.isWoken then
            { s2 with
              tasks := SR.ainsert tid ⟨Option.some restScript, false⟩ s2.tasks,
              readyQueue := rest ++ [tid] }
          else
            { s2 with
              tasks := SR.ainsert tid ⟨Option.some restScript, t.isWoken⟩ s2.tasks }
  | [] =>
    match s1.sleepingTasks with
    | [] => s1  -- unreachable under run's loop condition
    | _ :: _ =>
      let minTime := minDeadline s1.sleepingTasks
      { s1 with now := max s1.now minTime }

/-- `TaskExecutor::run`: iterate `runStep` until the ready queue and the
sleeping set are both empty (fuelled). -/
def run : Nat → ExecState → Except SR.Err ExecState
  | 0, _ => .error .outOfFuel
  | fuel + 1, s =>
    if s.readyQueue.isEmpty ∧ s.sleepingTasks.isEmpty then .ok s
    else run fuel (runStep s)

/-- A live task: its future slot is still occupied (the task has not
completed). -/
def TaskT.live (t : TaskT) : Bool := t.future.isSome

end SRAsync

/-!
Concrete programs and states used by the claim theorems below.
-/

namespace SR

/-- Claim C1 scenario: `let x = 0; fn f() { 1 / x; } x = 1; f()`.  Under
shared closure environments the call body would read `x = 1` and divide
cleanly; under the source's copied closures it reads the snapshot `x = 0`. -/
def c1Program : List Stmt :=
  [ .letS "x" (.literal (.int 0)),
    .function "f" [] [.expr (.binaryOp (.literal (.int 1)) .div (.identifier "x"))],
    .assign (.identifier "x") (.literal (.int 1)),
    .expr (.call (.identifier "f") []) ]

/-- The same program with the mutation moved before the function
definition, so the copied snapshot already holds `x = 1`. -/
def c1ProgramPre : List Stmt :=
  [ .letS "x" (.literal (.int 0)),
    .assign (.identifier "x") (.literal (.int 1)),
    .function "f" [] [.expr (.binaryOp (.literal (.int 1)) .div (.identifier "x"))],
    .expr (.call (.identifier "f") []) ]

/-- Claim C2 scenario: an environment holding `fn g() { return 5; }`. -/
def c2Env : Env :=
  Env.new.define "g"
    (.function "g" [] [.returnS (Option.some (.literal (.int 5)))] Env.new)

/-- Claim C3 scenario: `false && (1 / 0 == 0)` — under short-circuiting the
right operand would never run. -/
def c3AndExpr : Expr :=
  .binaryOp (.literal (.bool false)) .and
    (.binaryOp (.binaryOp (.literal (.int 1)) .div (.literal (.int 0)))
      .eq (.literal (.int 0)))

/-- Claim C3 scenario: `true || (1 / 0 == 0)`. -/
def c3OrExpr : Expr :=
  .binaryOp (.literal (.bool true)) .or
    (.binaryOp (.binaryOp (.literal (.int 1)) .div (.literal (.int 0)))
      .eq (.literal (.int 0)))

/-- Claim C5 scenario value: the enum value `Pair(1, 2)`. -/
def c5Value : Value := .enumV "Pair" [.int 1, .int 2]

/-- Claim C5 scenario pattern: `Pair(a, 3)` — the identifier sub-pattern
binds, then the literal sub-pattern fails. -/
def c5Pattern : Pattern := .enumVariant "Pair" [.identifier "a", .literal (.int 3)]

end SR

namespace SRTraits

/-- Claim C4 scenario: trait `Show` with required `to_string` (no default)
and `describe` carrying a trait-level default body. -/
def showTrait : TraitDef :=
  ⟨"Show",
   [("to_string", ⟨"to_string", Option.none⟩),
    ("describe", ⟨"describe", Option.some [SR.Stmt.returnS Option.none]⟩)],
   []⟩

/-- Claim C4 scenario: the `Point` impl of `Show` overriding only
`to_string` (legal at registration since `describe` has a default). -/
def pointImpl : TraitImplDef :=
  ⟨"Show", "Point", [("to_string", .function "to_string" 1 0)], []⟩

/-- The registry state after registering `showTrait` and `pointImpl`. -/
def c4Registry : TraitRegistry :=
  ⟨[("Show", showTrait)], [(("Show", "Point"), pointImpl)]⟩

/-- A `Point` receiver value carrying its `__type` tag. -/
def pointValue : TValue := .object [("__type", .str "Point")]

/-- Claim C8 counterexample input: an impl naming a trait the registry does
not know. -/
def c8Impl : TraitImplDef := ⟨"Show", "Point", [], []⟩

end SRTraits

namespace SRModules

/-- Claim C7 witness state: a registry whose standard-library table already
serves module `"m"`. -/
def w7Registry : ModuleRegistry Nat := ⟨[], [("m", [("x", 1)])], 0⟩

end SRModules

namespace SRAsync

/-- Claim C6 scenario: a fresh executor with one spawned task whose first
(and only scripted) poll returns `Pending` — the shape `sleep(..)`'s future
produces, its waker firing only later from the timer thread. -/
def c6Init : ExecState := spawn [PollR.pending] ExecState.new

/-- The state `run` reaches on `c6Init`: queues empty, the task still
holding its future (uncompleted), its wake flag clear. -/
def c6Final : ExecState := ⟨[], [], [(0, ⟨Option.some [], false⟩)], 0⟩

end SRAsync

/-!
Helper lemmas about the association-list model, shared by the claim
theorems below.
-/

namespace SR

/-- Inserting a key and looking it up again yields the inserted value. -/
theorem alookup_ainsert_self {κ α : Type} [DecidableEq κ] (k : κ) (v : α)
    (l : List (κ × α)) : alookup k (ainsert k v l) = Option.some v := by
  induction l with
  | nil => simp [ainsert, alookup]
  | cons hd tl ih =>
    obtain ⟨k2, v2⟩ := hd
    by_cases h : k2 = k
    · simp [ainsert, alookup, h]
    · simp [ainsert, alookup, h, ih]

/-- Inserting under one key leaves lookups of a different key unchanged. -/
theorem alookup_ainsert_ne {κ α : Type} [DecidableEq κ] (k k2 : κ) (v : α)
    (l : List (κ × α)) (h : k ≠ k2) :
    alookup k (ainsert k2 v l) = alookup k l := by
  have hks : ¬k2 = k := fun hh => h hh.symm
  induction l with
  | nil => simp [ainsert, alookup, hks]
  | cons hd tl ih =>
    obtain ⟨k3, v3⟩ := hd
    by_cases h3 : k3 = k2
    · subst h3
      simp [ainsert, alookup, hks]
    · by_cases h4 : k3 = k
      · simp [ainsert, alookup, h3, h4, h]
      · simp [ainsert, alookup, h3, h4, ih]

end SR

namespace SRTraits

/-- The method scan of `register_impl` finds no missing method exactly when
every trait method has an override in the impl or a default body. -/
theorem findMissingMethod_eq_none_iff (implDef : TraitImplDef)
    (ms : List (String × TraitMethodDef)) :
    findMissingMethod implDef ms = Option.none ↔
      ∀ p ∈ ms, ¬(SR.alookup p.1 implDef.methods = Option.none ∧
        p.2.defaultImpl = Option.none) := by
  induction ms with
  | nil => simp [findMissingMethod]
  | cons hd tl ih =>
    obtain ⟨mn, md⟩ := hd
    by_cases h : (SR.alookup mn implDef.methods).isNone ∧ md.defaultImpl.isNone
    · simp only [findMissingMethod, if_pos h]
      constructor
      · intro hcon
        exact Option.noConfusion hcon
      · intro hall
        exact absurd ⟨Option.isNone_iff_eq_none.mp h.1, Option.isNone_iff_eq_none.mp h.2⟩
          (hall (mn, md) (List.mem_cons_self _ _))
    · simp only [findMissingMethod, if_neg h, ih]
      constructor
      · intro hall p hp
        rcases List.mem_cons.mp hp with hp1 | hp2
        · subst hp1
          intro ⟨h1, h2⟩
          exact h ⟨Option.isNone_iff_eq_none.mpr h1, Option.isNone_iff_eq_none.mpr h2⟩
        · exact hall p hp2
      · intro hall p hp
        exact hall p (List.mem_cons_of_mem _ hp)

end SRTraits

/-!
Claim theorems.
-/

namespace SR

/-- C1: the claim says closures share their defining environment, so a
mutation of an enclosing variable between definition and call is observed
by the function body.  In the code `Stmt::Function` stores
`closure: Box::new(self.environment.clone())` — a deep copy — so the body
of `f` in `let x = 0; fn f() { 1 / x; } x = 1; f()` still reads the
snapshot `x = 0` and the program dies with a division-by-zero
`RuntimeError`; moving the mutation before the definition (second
conjunct) lets the same call succeed, pinning the failure on the
snapshotting. -/
theorem c1_closure_captures_copy_not_shared_env :
    executeStmtList 20 c1Program Env.new = .error (.runtimeError "Division by zero") ∧
    ∃ env, executeStmtList 20 c1ProgramPre Env.new = .ok env :=
  ⟨rfl, ⟨_, rfl⟩⟩

/-- C2: the claim says a body executing `return v` makes the call produce
`v`.  In the code `Stmt::Return` evaluates and discards its value and
`Expr::Call` ends with `Ok(Value::None)` unconditionally, so
`fn g() { return 5; } g()` evaluates to `None`, not `5`.  The arity half
of the claim does hold: calling `g` with one argument is a
`RuntimeError`. -/
theorem c2_call_discards_return_value :
    evaluateExpr 10 (.call (.identifier "g") []) c2Env = .ok (Value.none, c2Env) ∧
    evaluateExpr 10 (.call (.identifier "g") [.literal (.int 1)]) c2Env =
      .error (.runtimeError "Expected 0 arguments but got 1") := ⟨rfl, rfl⟩

/-- C3: the claim says `&&`/`||` short-circuit so an error in the right
operand does not occur once the left decides.  In the code `evaluate_expr`
evaluates both operands of every binary operator before dispatching, so
`false && (1/0 == 0)` and `true || (1/0 == 0)` each raise the
division-by-zero `RuntimeError` from the right operand.  Only the
value-level half survives (conjuncts 3 and 4): when the right operand
evaluates cleanly, a deciding left operand fixes the result without the
right operand's type being checked. -/
theorem c3_boolean_operators_evaluate_right_operand :
    evaluateExpr 10 c3AndExpr Env.new = .error (.runtimeError "Division by zero") ∧
    evaluateExpr 10 c3OrExpr Env.new = .error (.runtimeError "Division by zero") ∧
    evaluateExpr 10 (.binaryOp (.literal (.bool false)) .and (.literal (.int 7))) Env.new =
      .ok (.bool false, Env.new) ∧
    evaluateExpr 10 (.binaryOp (.literal (.bool true)) .or (.literal (.int 7))) Env.new =
      .ok (.bool true, Env.new) := ⟨rfl, rfl, rfl, rfl⟩

/-- C5: the claim says a failed overall match leaves the environment's
bindings unchanged.  In the code the `Identifier` arm of `pattern_matches`
defines its binding immediately: matching `Pair(1, 2)` against the pattern
`Pair(a, 3)` fails overall (the literal sub-pattern rejects `2`), yet the
empty environment comes back holding `a = 1`. -/
theorem c5_failed_enum_match_leaks_binding :
    patternMatches 10 c5Value c5Pattern (Env.mk [] Option.none) =
      .ok (false, Env.mk [("a", Value.int 1)] Option.none) := rfl

/-- C9 counterexample: the claim says modulo by a float zero raises a
`RuntimeError`; in the code `modulo` supports only integers, so `5 % 0.0`
(the claim's own `5 % 0` with a float zero divisor), `5.0 % 0.0` and
`5.0 % 0` all raise `TypeError("Modulo only works with integers")` — an
error, but not a `RuntimeError`. -/
theorem c9_modulo_float_zero_raises_type_error :
    modulo (.int 5) (.float 0) = .error (.typeError "Modulo only works with integers") ∧
    modulo (.float 5) (.float 0) = .error (.typeError "Modulo only works with integers") ∧
    modulo (.float 5) (.int 0) = .error (.typeError "Modulo only works with integers") ∧
    (∀ msg, modulo (.int 5) (.float 0) ≠ .error (.runtimeError msg)) ∧
    (∀ msg, modulo (.float 5) (.float 0) ≠ .error (.runtimeError msg)) ∧
    (∀ msg, modulo (.float 5) (.int 0) ≠ .error (.runtimeError msg)) :=
  ⟨rfl, rfl, rfl,
   fun _ h => by simp [modulo] at h,
   fun _ h => by simp [modulo] at h,
   fun _ h => by simp [modulo] at h⟩

/-- C9 as amended, over every pair of numeric operands: division by an
integer or float zero (all four `Int`/`Float` operand combinations) and
modulo by an integer zero raise `RuntimeError` (in particular `5 / 0` and
`5 % 0`); modulo with any float operand — `Int % Float`, `Float % Int`
and `Float % Float`, a float zero divisor included — raises a
`TypeError`; no case produces a non-error value. -/
theorem c9_division_modulo_zero_errors :
    (∀ a : Int, divide (.int a) (.int 0) = .error (.runtimeError "Division by zero")) ∧
    (∀ q : Rat, divide (.float q) (.float 0) = .error (.runtimeError "Division by zero")) ∧
    (∀ a : Int, divide (.int a) (.float 0) = .error (.runtimeError "Division by zero")) ∧
    (∀ q : Rat, divide (.float q) (.int 0) = .error (.runtimeError "Division by zero")) ∧
    (∀ a : Int, modulo (.int a) (.int 0) = .error (.runtimeError "Modulo by zero")) ∧
    (∀ (a : Int) (q : Rat), modulo (.int a) (.float q) =
      .error (.typeError "Modulo only works with integers")) ∧
    (∀ (q : Rat) (a : Int), modulo (.float q) (.int a) =
      .error (.typeError "Modulo only works with integers")) ∧
    (∀ q p : Rat, modulo (.float q) (.float p) =
      .error (.typeError "Modulo only works with integers")) ∧
    divide (.int 5) (.int 0) = .error (.runtimeError "Division by zero") ∧
    modulo (.int 5) (.int 0) = .error (.runtimeError "Modulo by zero") ∧
    modulo (.int 5) (.float 0) = .error (.typeError "Modulo only works with integers") ∧
    modulo (.float 5) (.int 0) = .error (.typeError "Modulo only works with integers") :=
  ⟨fun _ => rfl, fun _ => rfl, fun _ => rfl, fun _ => rfl, fun _ => rfl,
   fun _ _ => rfl, fun _ _ => rfl, fun _ _ => rfl, rfl, rfl, rfl, rfl⟩

/-- C10: `equals` is total — for every pair of values it returns
`Ok(Bool(..))` and never errors (conjunct 1); every pair of operands with
different type tags (`Value::type_name`) falls to the catch-all `false`
arm, comparing unequal rather than erroring or coercing (conjunct 2), in
particular `1 == 1.0` is `false` in both orders (conjuncts 3–4) — even
though all four ordering comparisons do coerce mixed `Int`/`Float`
operands (last conjunct, both orders each). -/
theorem c10_equals_total_and_mixed_numeric_unequal :
    (∀ v w : Value, ∃ b : Bool, equals v w = .ok (.bool b)) ∧
    (∀ v w : Value, typeName v ≠ typeName w → equals v w = .ok (.bool false)) ∧
    equals (.int 1) (.float 1) = .ok (.bool false) ∧
    equals (.float 1) (.int 1) = .ok (.bool false) ∧
    (∀ (a : Int) (q : Rat),
      lessThan (.int a) (.float q) = .ok (.bool (decide ((a : Rat) < q))) ∧
      lessThan (.float q) (.int a) = .ok (.bool (decide (q < (a : Rat)))) ∧
      lessEqual (.int a) (.float q) = .ok (.bool (decide ((a : Rat) ≤ q))) ∧
      lessEqual (.float q) (.int a) = .ok (.bool (decide (q ≤ (a : Rat)))) ∧
      greaterThan (.int a) (.float q) = .ok (.bool (decide ((a : Rat) > q))) ∧
      greaterThan (.float q) (.int a) = .ok (.bool (decide (q > (a : Rat)))) ∧
      greaterEqual (.int a) (.float q) = .ok (.bool (decide ((a : Rat) ≥ q))) ∧
      greaterEqual (.float q) (.int a) = .ok (.bool (decide (q ≥ (a : Rat))))) :=
  ⟨fun v w => by cases v <;> cases w <;> exact ⟨_, rfl⟩,
   fun v w h => by
     cases v <;> cases w <;> first | exact absurd rfl h | rfl,
   rfl, rfl, fun a q => ⟨rfl, rfl, rfl, rfl, rfl, rfl, rfl, rfl⟩⟩

/-- C10 witness: the cross-tag conjunct applied at the concrete pair
`1` / `1.0`, whose tags `int` and `float` differ. -/
theorem c10_equals_total_and_mixed_numeric_unequal_witness :
    typeName (Value.int 1) ≠ typeName (Value.float 1) ∧
    equals (Value.int 1) (Value.float 1) = .ok (.bool false) :=
  ⟨by decide,
   c10_equals_total_and_mixed_numeric_unequal.2.1 (Value.int 1) (Value.float 1) (by decide)⟩

end SR

namespace SRTraits

/-- C4: the claim says a method omitted from the impl resolves to the
trait's default body and the call succeeds.  The impl of `Show` for
`Point` overriding only `to_string` registers fine (conjunct 1, since
`describe` has a default), but calling `describe` on a `Point` dies with
`RuntimeError "Trait 'Show' has no method 'describe'"` because
`get_trait_method`'s default branch is the source's TODO stub (conjunct
2).  A type with no impl raises a `TypeError`, not a `TraitError`
(conjunct 3), and an overridden method does dispatch, reaching the
invocation with the receiver prepended (conjunct 4). -/
theorem c4_trait_default_fallback_unimplemented :
    ∀ callF natF : Nat → List TValue → Except SR.Err TValue,
      registerImpl pointImpl (registerTrait showTrait TraitRegistry.empty) = .ok c4Registry ∧
      callTraitMethod callF natF c4Registry pointValue "Show" "describe" [] =
        .error (.runtimeError "Trait 'Show' has no method 'describe'") ∧
      callTraitMethod callF natF c4Registry (.object [("__type", .str "Blob")])
          "Show" "describe" [] =
        .error (.typeError "Type 'Blob' does not implement trait 'Show'") ∧
      callTraitMethod callF natF c4Registry pointValue "Show" "to_string" [] =
        callF 0 [pointValue] :=
  fun _ _ => ⟨rfl, rfl, rfl, rfl⟩

/-- C8 counterexample: the claim says a failed registration raises a trait
error; registering an impl of the unknown trait `Show` raises
`ShitRustError::TypeError`, and no message makes it a `TraitError`. -/
theorem c8_register_impl_raises_type_error_not_trait_error :
    registerImpl c8Impl TraitRegistry.empty =
      .error (.typeError "Cannot implement unknown trait 'Show'") ∧
    ∀ msg, registerImpl c8Impl TraitRegistry.empty ≠ .error (.traitError msg) :=
  ⟨rfl, fun _ h => by simp [registerImpl, TraitRegistry.empty, c8Impl, SR.alookup] at h⟩

/-- C8 as amended: registration fails — always with a `TypeError`, never a
`TraitError` — exactly when the named trait is unknown or some required
method has neither an override in the impl nor a trait-level default
body; a successful registration only inserts the impl under its
`(trait, type)` key, so a failed one leaves the registry unchanged, and
the completeness check happens nowhere else (dispatch is a pure lookup). -/
theorem c8_register_impl_characterization (reg : TraitRegistry) (implDef : TraitImplDef) :
    ((∃ msg, registerImpl implDef reg = .error (.typeError msg)) ↔
      SR.alookup implDef.traitName reg.traits = Option.none ∨
        (∃ td, SR.alookup implDef.traitName reg.traits = Option.some td ∧
          ∃ p ∈ td.methods, SR.alookup p.1 implDef.methods = Option.none ∧
            p.2.defaultImpl = Option.none)) ∧
    (∀ msg, registerImpl implDef reg ≠ .error (.traitError msg)) ∧
    (∀ reg2, registerImpl implDef reg = .ok reg2 →
      reg2 = { reg with
               impls := SR.ainsert (implDef.traitName, implDef.typeName) implDef reg.impls }) := by
  refine ⟨?_, ?_, ?_⟩
  · cases ht : SR.alookup implDef.traitName reg.traits with
    | none =>
      constructor
      · intro _
        exact Or.inl rfl
      · intro _
        exact ⟨"Cannot implement unknown trait '" ++ implDef.traitName ++ "'",
          by simp [registerImpl, ht]⟩
    | some td =>
      cases hf : findMissingMethod implDef td.methods with
      | some mn =>
        constructor
        · intro _
          refine Or.inr ⟨td, rfl, ?_⟩
          by_contra hno
          push_neg at hno
          have := (findMissingMethod_eq_none_iff implDef td.methods).mpr ?_
          · rw [hf] at this
            exact Option.noConfusion this
          · intro p hp ⟨h1, h2⟩
            exact hno p hp h1 h2
        · intro _
          exact ⟨"Missing implementation for required method '" ++ mn
              ++ "' in trait '" ++ implDef.traitName ++ "'",
            by simp [registerImpl, ht, hf]⟩
      | none =>
        constructor
        · intro ⟨msg, hmsg⟩
          simp [registerImpl, ht, hf] at hmsg
        · intro hcond
          rcases hcond with h1 | ⟨td2, htd2, p, hp, h1, h2⟩
          · exact Option.noConfusion h1
          · injection htd2 with htd3
            subst htd3
            have := (findMissingMethod_eq_none_iff implDef td.methods).mp hf p hp
            exact absurd ⟨h1, h2⟩ this
  · intro msg hmsg
    unfold registerImpl at hmsg
    cases ht : SR.alookup implDef.traitName reg.traits with
    | none => simp [ht] at hmsg
    | some td =>
      simp only [ht] at hmsg
      cases hf : findMissingMethod implDef td.methods with
      | some mn => simp [hf] at hmsg
      | none => simp [hf] at hmsg
  · intro reg2 hok
    unfold registerImpl at hok
    cases ht : SR.alookup implDef.traitName reg.traits with
    | none => simp [ht] at hok
    | some td =>
      simp only [ht] at hok
      cases hf : findMissingMethod implDef td.methods with
      | some mn => simp [hf] at hok
      | none =>
        simp only [hf, Except.ok.injEq] at hok
        exact hok.symm

/-- C8 witness: the characterization applied at a concrete input — on the
empty registry, registering `c8Impl` (which names the unknown trait
`Show`) fails with a `TypeError`. -/
theorem c8_register_impl_characterization_witness :
    ∃ msg, registerImpl c8Impl TraitRegistry.empty = .error (.typeError msg) :=
  (c8_register_impl_characterization TraitRegistry.empty c8Impl).1.mpr (Or.inl rfl)

end SRTraits

namespace SRModules

/-- C7: module import is idempotent.  (1) A successful `import_module`
leaves the module cached with exactly the exports it returned; (2) an
already cached module is served those exports with the registry —
execution counter included — completely unchanged, so no top-level side
effect recurs; (3) cachedness survives any intervening import of any
module.  Together: a module's source is executed at most once, and
every later import of it returns a value-equal export map with no
further side effects. -/
theorem c7_import_module_idempotent {V : Type}
    (runM : String → Except SR.Err (List (String × V)))
    (findF : String → Option String) :
    (∀ name reg ex reg2, importModule runM findF name reg = .ok (ex, reg2) →
      Cached name reg2 ex) ∧
    (∀ name reg ex, Cached name reg ex →
      importModule runM findF name reg = .ok (ex, reg)) ∧
    (∀ name name2 reg ex ex2 reg2, Cached name reg ex →
      importModule runM findF name2 reg = .ok (ex2, reg2) → Cached name reg2 ex) := by
  refine ⟨?_, ?_, ?_⟩
  · intro name reg ex reg2 h
    unfold importModule at h
    cases hs : SR.alookup name reg.stdlibModules with
    | some stdex =>
      simp only [hs, Except.ok.injEq, Prod.mk.injEq] at h
      obtain ⟨hex, hreg⟩ := h
      subst hreg
      exact Or.inl (hs.trans (by rw [hex]))
    | none =>
      simp only [hs] at h
      cases hm : SR.alookup name reg.modules with
      | some m =>
        simp only [hm] at h
        by_cases hl : m.loaded
        · simp only [hl, if_true, Except.ok.injEq, Prod.mk.injEq] at h
          obtain ⟨hex, hreg⟩ := h
          subst hreg
          exact Or.inr ⟨hs, m, hm, hl, hex⟩
        · simp only [hl, if_false, load, Bool.false_eq_true] at h
          cases hr : runM m.path with
          | error e => simp [hr] at h
          | ok exps =>
            simp only [hr, Except.ok.injEq, Prod.mk.injEq] at h
            obtain ⟨hex, hreg⟩ := h
            subst hreg
            exact Or.inr ⟨hs, { m with exports := exps, loaded := true },
              SR.alookup_ainsert_self name _ reg.modules, rfl, hex⟩
      | none =>
        simp only [hm, findModuleFile] at h
        cases hf : findF name with
        | none => simp [hf] at h
        | some path =>
          simp only [hf, load, Bool.false_eq_true, if_false] at h
          cases hr : runM path with
          | error e => simp [hr] at h
          | ok exps =>
            simp only [hr, Except.ok.injEq, Prod.mk.injEq] at h
            obtain ⟨hex, hreg⟩ := h
            subst hreg
            exact Or.inr ⟨hs, _, SR.alookup_ainsert_self name _ reg.modules, rfl, hex⟩
  · intro name reg ex hc
    rcases hc with hs | ⟨hs, m, hm, hl, hex⟩
    · unfold importModule
      simp only [hs]
    · unfold importModule
      simp only [hs, hm, hl, if_true, hex]
  · intro name name2 reg ex ex2 reg2 hc h
    unfold importModule at h
    cases hs2 : SR.alookup name2 reg.stdlibModules with
    | some stdex =>
      simp only [hs2, Except.ok.injEq, Prod.mk.injEq] at h
      obtain ⟨_, hreg⟩ := h
      subst hreg
      exact hc
    | none =>
      simp only [hs2] at h
      cases hm2 : SR.alookup name2 reg.modules with
      | some m2 =>
        simp only [hm2] at h
        by_cases hl2 : m2.loaded
        · simp only [hl2, if_true, Except.ok.injEq, Prod.mk.injEq] at h
          obtain ⟨_, hreg⟩ := h
          subst hreg
          exact hc
        · simp only [hl2, if_false, load, Bool.false_eq_true] at h
          cases hr : runM m2.path with
          | error e => simp [hr] at h
          | ok exps =>
            simp only [hr, Except.ok.injEq, Prod.mk.injEq] at h
            obtain ⟨_, hreg⟩ := h
            subst hreg
            rcases hc with hs | ⟨hs, m, hm, hl, hex⟩
            · exact Or.inl hs
            · have hne : name ≠ name2 := by
                intro heq
                subst heq
                rw [hm] at hm2
                injection hm2 with hmm
                subst hmm
                exact hl2 hl
              exact Or.inr ⟨hs, m,
                (SR.alookup_ainsert_ne name name2 _ reg.modules hne).trans hm, hl, hex⟩
      | none =>
        simp only [hm2, findModuleFile] at h
        cases hf : findF name2 with
        | none => simp [hf] at h
        | some path =>
          simp only [hf, load, Bool.false_eq_true, if_false] at h
          cases hr : runM path with
          | error e => simp [hr] at h
          | ok exps =>
            simp only [hr, Except.ok.injEq, Prod.mk.injEq] at h
            obtain ⟨_, hreg⟩ := h
            subst hreg
            rcases hc with hs | ⟨hs, m, hm, hl, hex⟩
            · exact Or.inl hs
            · have hne : name ≠ name2 := by
                intro heq
                subst heq
                rw [hm] at hm2
                exact Option.noConfusion hm2
              exact Or.inr ⟨hs, m,
                (SR.alookup_ainsert_ne name name2 _ reg.modules hne).trans hm, hl, hex⟩

/-- C7 witness: the idempotence theorem applied at a concrete input — a
registry whose standard-library table serves `"m"` answers the import from
cache, state unchanged. -/
theorem c7_import_module_idempotent_witness :
    importModule (fun _ => .ok [("x", 1)]) (fun _ => Option.some "m.sr") "m" w7Registry =
      .ok ([("x", 1)], w7Registry) :=
  (c7_import_module_idempotent (fun _ => .ok [("x", 1)]) (fun _ => Option.some "m.sr")).2.1
    "m" w7Registry [("x", 1)] (Or.inl rfl)

end SRModules

namespace SRAsync

/-- C6: the claim says every live task is in exactly one of the ready
queue, the sleeping set, or being polled, and a wake during or immediately
after a Pending poll gets the task re-enqueued.  Running the scheduler on
one spawned task whose first poll returns `Pending` (the shape of
`sleep()`'s future, whose waker fires from a timer thread only later)
terminates with the task still live — holding its future — yet in neither
queue and no longer being polled (conjuncts 1–4); and a subsequent wake
merely sets the flag: re-running the scheduler returns immediately without
ever polling the task again, so the wake-up is lost (conjuncts 5–6). -/
theorem c6_pending_task_orphaned_and_wakeup_lost :
    run 3 c6Init = .ok c6Final ∧
    c6Final.readyQueue = [] ∧
    c6Final.sleepingTasks = [] ∧
    SR.alookup 0 c6Final.tasks = Option.some ⟨Option.some [], false⟩ ∧
    run 2 (wake 0 c6Final) = .ok (wake 0 c6Final) ∧
    SR.alookup 0 (wake 0 c6Final).tasks = Option.some ⟨Option.some [], true⟩ :=
  ⟨rfl, rfl, rfl, rfl, rfl, rfl⟩

end SRAsync
